import Mathlib

/-!
Shallow embedding of the picoleaf Nanoleaf client's color conversion and
state-setting operations.

The Go source computes with `float64`; here the arithmetic is embedded over
the exact rationals `ℚ`.  All quantities involved are small rationals with
denominators bounded by `2 * 255 * 255`, far from any rounding boundary that
double-precision error (on the order of `2 ^ (-40)` here) could cross, so the
rational model and the floating-point program round to the same integers on
the whole documented domain.

Go's `math.Round` rounds half away from zero; `int(math.Round x)` is exact on
the integral result.  Go local variables of `rgbToHSL` are embedded as named
definitions: `r`, `g`, `b` become `normalize red` etc., `min`/`max` become
`minChannel`/`maxChannel`, `c` becomes `chroma`, `l` becomes `lightness`,
`v` is `maxChannel` itself, and the `switch v` hue computation becomes
`huePre`/`hue`.
-/

namespace Picoleaf

/-- Go's `math.Round`: round to the nearest integer, half away from zero. -/
def mathRound (x : ℚ) : ℤ :=
  if 0 ≤ x then ⌊x + 1 / 2⌋ else -⌊-x + 1 / 2⌋

/-- Embeds `r := float64(red) / 255.0` (and likewise for green, blue). -/
def normalize (x : ℤ) : ℚ := (x : ℚ) / 255

/-- Embeds `min := math.Min(math.Min(r, g), b)`. -/
def minChannel (red green blue : ℤ) : ℚ :=
  min (min (normalize red) (normalize green)) (normalize blue)

/-- Embeds `max := math.Max(math.Max(r, g), b)`. -/
def maxChannel (red green blue : ℤ) : ℚ :=
  max (max (normalize red) (normalize green)) (normalize blue)

/-- Embeds `c := max - min`. -/
def chroma (red green blue : ℤ) : ℚ :=
  maxChannel red green blue - minChannel red green blue

/-- Embeds `l := (max + min) / 2`. -/
def lightness (red green blue : ℤ) : ℚ :=
  (maxChannel red green blue + minChannel red green blue) / 2

/-- Embeds the `switch v` block of `rgbToHSL` (`v := max`, `h` initialized to
`0.0` and left unchanged when no case matches): the intermediate hue before
scaling to degrees. -/
def huePre (red green blue : ℤ) : ℚ :=
  if maxChannel red green blue = normalize red then
    0 + (normalize green - normalize blue) / chroma red green blue
  else if maxChannel red green blue = normalize green then
    2 + (normalize blue - normalize red) / chroma red green blue
  else if maxChannel red green blue = normalize blue then
    4 + (normalize red - normalize green) / chroma red green blue
  else 0

/-- Embeds `h *= 60; if h < 0 { h += 360 }`. -/
def hue (red green blue : ℤ) : ℚ :=
  if huePre red green blue * 60 < 0 then huePre red green blue * 60 + 360
  else huePre red green blue * 60

/-- Embeds `s := (v - l) / math.Min(l, 1-l)` (with `v := max`). -/
def saturation (red green blue : ℤ) : ℚ :=
  (maxChannel red green blue - lightness red green blue) /
    min (lightness red green blue) (1 - lightness red green blue)

/-- Embeds `func rgbToHSL(red, green, blue int) (int, int, int)`. -/
def rgbToHSL (red green blue : ℤ) : ℤ × ℤ × ℤ :=
  if chroma red green blue = 0 then
    (0, 0, mathRound (100 * lightness red green blue))
  else
    (mathRound (hue red green blue),
     mathRound (100 * saturation red green blue),
     mathRound (100 * lightness red green blue))

/-- Follows the spec's wording for step 5 of the algorithm (chromatic case):
determine which channel equals `max`, ties broken in evaluation order
red → green → blue, and compute the intermediate hue contribution. -/
def specHueContribution (red green blue : ℤ) : ℚ :=
  if normalize red = maxChannel red green blue then
    (normalize green - normalize blue) / chroma red green blue
  else if normalize green = maxChannel red green blue then
    2 + (normalize blue - normalize red) / chroma red green blue
  else
    4 + (normalize red - normalize green) / chroma red green blue

/-- Follows the spec's wording: multiply by 60 to convert to degrees; if
negative, add 360. -/
def specHue (red green blue : ℤ) : ℚ :=
  if specHueContribution red green blue * 60 < 0 then
    specHueContribution red green blue * 60 + 360
  else specHueContribution red green blue * 60

/-! ### Client state model

The Nanoleaf state records are embedded with Go nil-able pointer fields as
`Option` and Go zero values as the Lean defaults supplied explicitly at each
construction site. -/

/-- Embeds the Go struct `OnProperty`. -/
structure OnProperty where
  Value : Bool

/-- Embeds the Go struct `BrightnessProperty`. -/
structure BrightnessProperty where
  Min : Option ℤ
  Max : Option ℤ
  Value : ℤ
  Duration : ℤ

/-- Embeds the Go struct `ColorTemperatureProperty`. -/
structure ColorTemperatureProperty where
  Min : Option ℤ
  Max : Option ℤ
  Value : ℤ

/-- Embeds the Go struct `HueProperty`. -/
structure HueProperty where
  Min : Option ℤ
  Max : Option ℤ
  Value : ℤ

/-- Embeds the Go struct `SaturationProperty`. -/
structure SaturationProperty where
  Min : Option ℤ
  Max : Option ℤ
  Value : ℤ

/-- Embeds the Go struct `State`. -/
structure State where
  On : Option OnProperty
  Brightness : Option BrightnessProperty
  ColorTemperature : Option ColorTemperatureProperty
  Hue : Option HueProperty
  Saturation : Option SaturationProperty
  ColorMode : String

/-- Embeds the Go struct `effectsSelectRequest`. -/
structure effectsSelectRequest where
  Select : String

/-- Embeds the `State` literal built by `SetHSL`: brightness, hue and
saturation set, every other field left at its zero value. -/
def setHSLState (hue sat lightness : ℤ) : State :=
  { On := none
    Brightness := some { Min := none, Max := none, Value := lightness, Duration := 0 }
    ColorTemperature := none
    Hue := some { Min := none, Max := none, Value := hue }
    Saturation := some { Min := none, Max := none, Value := sat }
    ColorMode := "" }

/-- Embeds the `State` literal built by `SetBrightness`. -/
def setBrightnessState (brightness : ℤ) : State :=
  { On := none
    Brightness := some { Min := none, Max := none, Value := brightness, Duration := 0 }
    ColorTemperature := none
    Hue := none
    Saturation := none
    ColorMode := "" }

/-- Embeds the `State` literal built by `SetColorTemperature`. -/
def setColorTemperatureState (temperature : ℤ) : State :=
  { On := none
    Brightness := none
    ColorTemperature := some { Min := none, Max := none, Value := temperature }
    Hue := none
    Saturation := none
    ColorMode := "" }

/-- Embeds `SetRGB`: `h, s, l := rgbToHSL(red, green, blue)` followed by
`SetHSL(h, s, l)`; the state body it sends. -/
def setRGBState (red green blue : ℤ) : State :=
  setHSLState (rgbToHSL red green blue).1
    (rgbToHSL red green blue).2.1 (rgbToHSL red green blue).2.2

/-! ### Client operations returning errors

`json.Marshal` and `Client.Put` are external collaborators (JSON encoding,
HTTP transport); they are passed in as function arguments.  A Go `error`
result is `Option String` (`none` is Go `nil`).  Each embedding mirrors the
Go control flow: return early on a marshal error, then call `Put` and return
`nil` with `Put`'s result bound but never consulted. -/

/-- Embeds `SelectEffect`. -/
def selectEffect (marshal : effectsSelectRequest → Except String String)
    (put : String → String → Option String) (name : String) : Option String :=
  match marshal { Select := name } with
  | Except.error err => some err
  | Except.ok bytes =>
      let _ := put "effects/select" bytes
      none

/-- Embeds `SetBrightness`. -/
def setBrightness (marshal : State → Except String String)
    (put : String → String → Option String) (brightness : ℤ) : Option String :=
  match marshal (setBrightnessState brightness) with
  | Except.error err => some err
  | Except.ok bytes =>
      let _ := put "state" bytes
      none

/-- Embeds `SetColorTemperature`. -/
def setColorTemperature (marshal : State → Except String String)
    (put : String → String → Option String) (temperature : ℤ) : Option String :=
  match marshal (setColorTemperatureState temperature) with
  | Except.error err => some err
  | Except.ok bytes =>
      let _ := put "state" bytes
      none

/-- Embeds `SetHSL`. -/
def setHSL (marshal : State → Except String String)
    (put : String → String → Option String)
    (hue sat lightness : ℤ) : Option String :=
  match marshal (setHSLState hue sat lightness) with
  | Except.error err => some err
  | Except.ok bytes =>
      let _ := put "state" bytes
      none

/-- Marshal stub used to witness the error-discarding theorem. -/
def wMarshalReq : effectsSelectRequest → Except String String :=
  fun _ => Except.ok "body"

/-- State-marshal stub used to witness the error-discarding theorem. -/
def wMarshalState : State → Except String String :=
  fun _ => Except.ok "body"

/-- Always-failing transport stub used to witness the error-discarding
theorem. -/
def wPut : String → String → Option String :=
  fun _ _ => some "connection refused"

/-! ### Helper lemmas -/

lemma normalize_nonneg {x : ℤ} (hx : 0 ≤ x) : 0 ≤ normalize x := by
  unfold normalize
  apply div_nonneg _ (by norm_num)
  exact_mod_cast hx

lemma normalize_le_one {x : ℤ} (hx : x ≤ 255) : normalize x ≤ 1 := by
  unfold normalize
  rw [div_le_one (by norm_num : (0 : ℚ) < 255)]
  exact_mod_cast hx

lemma channel_bounds (red green blue : ℤ) :
    (minChannel red green blue ≤ normalize red ∧
      normalize red ≤ maxChannel red green blue) ∧
    (minChannel red green blue ≤ normalize green ∧
      normalize green ≤ maxChannel red green blue) ∧
    (minChannel red green blue ≤ normalize blue ∧
      normalize blue ≤ maxChannel red green blue) := by
  unfold minChannel maxChannel
  refine ⟨⟨?_, ?_⟩, ⟨?_, ?_⟩, ⟨?_, ?_⟩⟩
  · exact le_trans (min_le_left _ _) (min_le_left _ _)
  · exact le_trans (le_max_left _ _) (le_max_left _ _)
  · exact le_trans (min_le_left _ _) (min_le_right _ _)
  · exact le_trans (le_max_right _ _) (le_max_left _ _)
  · exact min_le_right _ _
  · exact le_max_right _ _

lemma minChannel_le_maxChannel (red green blue : ℤ) :
    minChannel red green blue ≤ maxChannel red green blue :=
  le_trans (channel_bounds red green blue).1.1 (channel_bounds red green blue).1.2

lemma chroma_nonneg (red green blue : ℤ) : 0 ≤ chroma red green blue :=
  sub_nonneg.mpr (minChannel_le_maxChannel red green blue)

lemma chroma_pos {red green blue : ℤ} (hc : chroma red green blue ≠ 0) :
    0 < chroma red green blue :=
  lt_of_le_of_ne (chroma_nonneg red green blue) (Ne.symm hc)

lemma minChannel_nonneg {red green blue : ℤ}
    (hr : 0 ≤ red) (hg : 0 ≤ green) (hb : 0 ≤ blue) :
    0 ≤ minChannel red green blue :=
  le_min (le_min (normalize_nonneg hr) (normalize_nonneg hg)) (normalize_nonneg hb)

lemma maxChannel_le_one {red green blue : ℤ}
    (hr : red ≤ 255) (hg : green ≤ 255) (hb : blue ≤ 255) :
    maxChannel red green blue ≤ 1 :=
  max_le (max_le (normalize_le_one hr) (normalize_le_one hg)) (normalize_le_one hb)

lemma lightness_nonneg {red green blue : ℤ}
    (hr : 0 ≤ red) (hg : 0 ≤ green) (hb : 0 ≤ blue) :
    0 ≤ lightness red green blue := by
  have h1 := minChannel_nonneg hr hg hb
  have h2 := minChannel_le_maxChannel red green blue
  unfold lightness
  linarith

lemma lightness_le_one {red green blue : ℤ}
    (hr : red ≤ 255) (hg : green ≤ 255) (hb : blue ≤ 255) :
    lightness red green blue ≤ 1 := by
  have h1 := maxChannel_le_one hr hg hb
  have h2 := minChannel_le_maxChannel red green blue
  unfold lightness
  linarith

lemma lightness_pos {red green blue : ℤ}
    (hr : 0 ≤ red) (hg : 0 ≤ green) (hb : 0 ≤ blue)
    (hc : chroma red green blue ≠ 0) :
    0 < lightness red green blue := by
  have h1 := minChannel_nonneg hr hg hb
  have h2 := chroma_pos hc
  unfold chroma at h2
  unfold lightness
  linarith

lemma lightness_lt_one {red green blue : ℤ}
    (hr : red ≤ 255) (hg : green ≤ 255) (hb : blue ≤ 255)
    (hc : chroma red green blue ≠ 0) :
    lightness red green blue < 1 := by
  have h1 := maxChannel_le_one hr hg hb
  have h2 := chroma_pos hc
  unfold chroma at h2
  unfold lightness
  linarith

lemma div_chroma_bounds {x y c : ℚ} (hc : 0 < c)
    (hxy : x - y ≤ c) (hyx : y - x ≤ c) :
    -1 ≤ (x - y) / c ∧ (x - y) / c ≤ 1 := by
  constructor
  · rw [le_div_iff₀ hc]; linarith
  · rw [div_le_one hc]; linarith

lemma huePre_bounds {red green blue : ℤ} (hc : chroma red green blue ≠ 0) :
    -1 ≤ huePre red green blue ∧ huePre red green blue ≤ 5 := by
  have hcp := chroma_pos hc
  obtain ⟨⟨hr1, hr2⟩, ⟨hg1, hg2⟩, ⟨hb1, hb2⟩⟩ := channel_bounds red green blue
  have hcc : chroma red green blue =
      maxChannel red green blue - minChannel red green blue := rfl
  have hgb := div_chroma_bounds (x := normalize green) (y := normalize blue)
    hcp (by rw [hcc]; linarith) (by rw [hcc]; linarith)
  have hbr := div_chroma_bounds (x := normalize blue) (y := normalize red)
    hcp (by rw [hcc]; linarith) (by rw [hcc]; linarith)
  have hrg := div_chroma_bounds (x := normalize red) (y := normalize green)
    hcp (by rw [hcc]; linarith) (by rw [hcc]; linarith)
  unfold huePre
  split_ifs with h1 h2 h3 <;> constructor <;>
    linarith [hgb.1, hgb.2, hbr.1, hbr.2, hrg.1, hrg.2]

lemma hue_bounds {red green blue : ℤ} (hc : chroma red green blue ≠ 0) :
    0 ≤ hue red green blue ∧ hue red green blue < 360 := by
  have h := huePre_bounds hc
  unfold hue
  split_ifs with hneg
  · constructor <;> linarith
  · push_neg at hneg
    constructor <;> linarith

lemma mathRound_nonneg {q : ℚ} (hq : 0 ≤ q) : 0 ≤ mathRound q := by
  unfold mathRound
  rw [if_pos hq]
  exact Int.le_floor.mpr (by push_cast; linarith)

lemma mathRound_le {q : ℚ} {n : ℤ} (hq : 0 ≤ q) (h : q ≤ (n : ℚ)) :
    mathRound q ≤ n := by
  unfold mathRound
  rw [if_pos hq]
  have h2 : ⌊q + 1 / 2⌋ < n + 1 := Int.floor_lt.mpr (by push_cast; linarith)
  omega

lemma saturation_bounds {red green blue : ℤ}
    (hr0 : 0 ≤ red) (hr1 : red ≤ 255) (hg0 : 0 ≤ green) (hg1 : green ≤ 255)
    (hb0 : 0 ≤ blue) (hb1 : blue ≤ 255) (hc : chroma red green blue ≠ 0) :
    0 ≤ saturation red green blue ∧ saturation red green blue ≤ 1 := by
  have hl0 := lightness_pos hr0 hg0 hb0 hc
  have hl1 := lightness_lt_one hr1 hg1 hb1 hc
  have hd : 0 < min (lightness red green blue) (1 - lightness red green blue) :=
    lt_min hl0 (by linarith)
  have hcp := chroma_pos hc
  have hcc : chroma red green blue =
      maxChannel red green blue - minChannel red green blue := rfl
  rw [hcc] at hcp
  have hll : lightness red green blue =
      (maxChannel red green blue + minChannel red green blue) / 2 := rfl
  have hmn := minChannel_nonneg hr0 hg0 hb0
  have hmx := maxChannel_le_one hr1 hg1 hb1
  have hnum : 0 ≤ maxChannel red green blue - lightness red green blue := by
    rw [hll]; linarith
  constructor
  · exact div_nonneg hnum (le_of_lt hd)
  · unfold saturation
    rw [div_le_one hd]
    apply le_min
    · rw [hll]; linarith
    · rw [hll]; linarith

lemma huePre_eq_specHueContribution (red green blue : ℤ) :
    huePre red green blue = specHueContribution red green blue := by
  unfold huePre specHueContribution
  by_cases h1 : maxChannel red green blue = normalize red
  · rw [if_pos h1, if_pos h1.symm, zero_add]
  · have h1' : ¬ normalize red = maxChannel red green blue := fun h => h1 h.symm
    rw [if_neg h1, if_neg h1']
    by_cases h2 : maxChannel red green blue = normalize green
    · rw [if_pos h2, if_pos h2.symm]
    · have h2' : ¬ normalize green = maxChannel red green blue := fun h => h2 h.symm
      rw [if_neg h2, if_neg h2']
      have h3 : maxChannel red green blue = normalize blue := by
        rcases max_choice (max (normalize red) (normalize green)) (normalize blue)
          with h | h
        · rcases max_choice (normalize red) (normalize green) with h' | h'
          · exact absurd (h.trans h') h1
          · exact absurd (h.trans h') h2
        · exact h
      rw [if_pos h3]

lemma hue_eq_specHue (red green blue : ℤ) :
    hue red green blue = specHue red green blue := by
  unfold hue specHue
  rw [huePre_eq_specHueContribution]

/-! ### Claim theorems -/

/-- C1: for every input with red = green = blue, each channel in [0, 255],
`rgbToHSL` takes the achromatic short-circuit and returns hue 0, saturation 0
and lightness `round (100 * red / 255)`, before any division by chroma or by
`min l (1 - l)`. -/
theorem rgbToHSL_achromatic (red green blue : ℤ)
    (hr0 : 0 ≤ red) (hr1 : red ≤ 255) (hg : green = red) (hb : blue = red) :
    rgbToHSL red green blue = (0, 0, mathRound (100 * ((red : ℚ) / 255))) := by
  rw [hg, hb]
  have hmax : maxChannel red red red = normalize red := by
    unfold maxChannel
    rw [max_self, max_self]
  have hmin : minChannel red red red = normalize red := by
    unfold minChannel
    rw [min_self, min_self]
  have hc : chroma red red red = 0 := by
    unfold chroma
    rw [hmax, hmin, sub_self]
  have hl : lightness red red red = (red : ℚ) / 255 := by
    unfold lightness
    rw [hmax, hmin]
    unfold normalize
    ring
  rw [rgbToHSL, if_pos hc, hl]

/-- Witness for C1 at the concrete gray input (10, 10, 10). -/
theorem rgbToHSL_achromatic_witness :
    ((0 : ℤ) ≤ 10 ∧ (10 : ℤ) ≤ 255 ∧ (10 : ℤ) = 10 ∧ (10 : ℤ) = 10) ∧
    rgbToHSL 10 10 10 = (0, 0, mathRound (100 * (((10 : ℤ) : ℚ) / 255))) :=
  ⟨by norm_num, rgbToHSL_achromatic 10 10 10 (by norm_num) (by norm_num) rfl rfl⟩

/-- C2 counterexample: at input (255, 0, 1) the pre-rounding hue is
6116/17 ≈ 359.765, which `math.Round` takes to 360, so the returned hue is
not in [0, 360). -/
theorem rgbToHSL_hue_360_counterexample :
    (rgbToHSL 255 0 1).1 = 360 ∧ ¬ ((rgbToHSL 255 0 1).1 < 360) := by
  have h : rgbToHSL 255 0 1 = (360, 100, 50) := by
    norm_num [rgbToHSL, chroma, maxChannel, minChannel, normalize, lightness, hue,
      huePre, saturation, mathRound, min_def, max_def]
  rw [h]
  exact ⟨rfl, by norm_num⟩

/-- C2 amended: for every input with each channel in [0, 255], the hue
returned by `rgbToHSL` lies in the closed interval [0, 360]; the pre-rounding
hue lies in [0, 360) but rounding can reach 360 exactly. -/
theorem rgbToHSL_hue_range (red green blue : ℤ)
    (hr0 : 0 ≤ red) (hr1 : red ≤ 255) (hg0 : 0 ≤ green) (hg1 : green ≤ 255)
    (hb0 : 0 ≤ blue) (hb1 : blue ≤ 255) :
    0 ≤ (rgbToHSL red green blue).1 ∧ (rgbToHSL red green blue).1 ≤ 360 := by
  rw [rgbToHSL]
  split_ifs with hc
  · exact ⟨le_refl 0, by norm_num⟩
  · have h := hue_bounds hc
    exact ⟨mathRound_nonneg h.1, mathRound_le h.1 (by push_cast; linarith [h.2])⟩

/-- Witness for the amended C2 at the boundary input (255, 0, 1). -/
theorem rgbToHSL_hue_range_witness :
    ((0 : ℤ) ≤ 255 ∧ (255 : ℤ) ≤ 255 ∧ (0 : ℤ) ≤ 0 ∧ (0 : ℤ) ≤ 255 ∧
      (0 : ℤ) ≤ 1 ∧ (1 : ℤ) ≤ 255) ∧
    (0 ≤ (rgbToHSL 255 0 1).1 ∧ (rgbToHSL 255 0 1).1 ≤ 360) :=
  ⟨by norm_num, rgbToHSL_hue_range 255 0 1 (by norm_num) (by norm_num)
    (by norm_num) (by norm_num) (by norm_num) (by norm_num)⟩

/-- C3: for every chromatic input with channels in [0, 255], the hue returned
by `rgbToHSL` is the rounding of the hue prescribed by the spec: select the
max channel in evaluation order red → green → blue, take `(g-b)/c`,
`2 + (b-r)/c` or `4 + (r-g)/c` on normalized channels, multiply by 60, add
360 if negative. -/
theorem rgbToHSL_hue_branch_spec (red green blue : ℤ)
    (hr0 : 0 ≤ red) (hr1 : red ≤ 255) (hg0 : 0 ≤ green) (hg1 : green ≤ 255)
    (hb0 : 0 ≤ blue) (hb1 : blue ≤ 255) (hc : chroma red green blue ≠ 0) :
    (rgbToHSL red green blue).1 = mathRound (specHue red green blue) := by
  rw [rgbToHSL, if_neg hc]
  exact congrArg mathRound (hue_eq_specHue red green blue)

/-- Witness for C3 at the chromatic input (255, 128, 0). -/
theorem rgbToHSL_hue_branch_spec_witness :
    ((0 : ℤ) ≤ 255 ∧ (255 : ℤ) ≤ 255 ∧ (0 : ℤ) ≤ 128 ∧ (128 : ℤ) ≤ 255 ∧
      (0 : ℤ) ≤ 0 ∧ (0 : ℤ) ≤ 255 ∧ chroma 255 128 0 ≠ 0) ∧
    (rgbToHSL 255 128 0).1 = mathRound (specHue 255 128 0) :=
  ⟨⟨by norm_num, by norm_num, by norm_num, by norm_num, by norm_num, by norm_num,
    by norm_num [chroma, maxChannel, minChannel, normalize, min_def, max_def]⟩,
   rgbToHSL_hue_branch_spec 255 128 0 (by norm_num) (by norm_num) (by norm_num)
    (by norm_num) (by norm_num) (by norm_num)
    (by norm_num [chroma, maxChannel, minChannel, normalize, min_def, max_def])⟩

/-- C4: for every chromatic input with channels in [0, 255], the returned
triple is `(round h, round (100 * s), round (100 * l))` with
`s = (max - l) / min l (1 - l)` on normalized channels and
`l = (max + min) / 2`. -/
theorem rgbToHSL_saturation_spec (red green blue : ℤ)
    (hr0 : 0 ≤ red) (hr1 : red ≤ 255) (hg0 : 0 ≤ green) (hg1 : green ≤ 255)
    (hb0 : 0 ≤ blue) (hb1 : blue ≤ 255) (hc : chroma red green blue ≠ 0) :
    rgbToHSL red green blue =
      (mathRound (hue red green blue),
       mathRound (100 * ((maxChannel red green blue - lightness red green blue) /
         min (lightness red green blue) (1 - lightness red green blue))),
       mathRound (100 * lightness red green blue)) := by
  rw [rgbToHSL, if_neg hc]
  rfl

/-- Witness for C4 at the chromatic input (12, 200, 7). -/
theorem rgbToHSL_saturation_spec_witness :
    ((0 : ℤ) ≤ 12 ∧ (12 : ℤ) ≤ 255 ∧ (0 : ℤ) ≤ 200 ∧ (200 : ℤ) ≤ 255 ∧
      (0 : ℤ) ≤ 7 ∧ (7 : ℤ) ≤ 255 ∧ chroma 12 200 7 ≠ 0) ∧
    rgbToHSL 12 200 7 =
      (mathRound (hue 12 200 7),
       mathRound (100 * ((maxChannel 12 200 7 - lightness 12 200 7) /
         min (lightness 12 200 7) (1 - lightness 12 200 7))),
       mathRound (100 * lightness 12 200 7)) :=
  ⟨⟨by norm_num, by norm_num, by norm_num, by norm_num, by norm_num, by norm_num,
    by norm_num [chroma, maxChannel, minChannel, normalize, min_def, max_def]⟩,
   rgbToHSL_saturation_spec 12 200 7 (by norm_num) (by norm_num) (by norm_num)
    (by norm_num) (by norm_num) (by norm_num)
    (by norm_num [chroma, maxChannel, minChannel, normalize, min_def, max_def])⟩

/-- C5: `rgbToHSL` maps pure red to (0, 100, 50), pure green to
(120, 100, 50) and pure blue to (240, 100, 50). -/
theorem rgbToHSL_primaries :
    rgbToHSL 255 0 0 = (0, 100, 50) ∧ rgbToHSL 0 255 0 = (120, 100, 50) ∧
    rgbToHSL 0 0 255 = (240, 100, 50) := by
  refine ⟨?_, ?_, ?_⟩ <;>
    norm_num [rgbToHSL, chroma, maxChannel, minChannel, normalize, lightness, hue,
      huePre, saturation, mathRound, min_def, max_def]

/-- C6: for every input with each channel in [0, 255], the returned
saturation and lightness both lie in [0, 100]. -/
theorem rgbToHSL_sat_lightness_range (red green blue : ℤ)
    (hr0 : 0 ≤ red) (hr1 : red ≤ 255) (hg0 : 0 ≤ green) (hg1 : green ≤ 255)
    (hb0 : 0 ≤ blue) (hb1 : blue ≤ 255) :
    0 ≤ (rgbToHSL red green blue).2.1 ∧ (rgbToHSL red green blue).2.1 ≤ 100 ∧
    0 ≤ (rgbToHSL red green blue).2.2 ∧ (rgbToHSL red green blue).2.2 ≤ 100 := by
  have hl0 := lightness_nonneg hr0 hg0 hb0
  have hl1 := lightness_le_one hr1 hg1 hb1
  have hL0 : 0 ≤ mathRound (100 * lightness red green blue) :=
    mathRound_nonneg (by linarith)
  have hL1 : mathRound (100 * lightness red green blue) ≤ 100 :=
    mathRound_le (by linarith) (by push_cast; linarith)
  rw [rgbToHSL]
  split_ifs with hc
  · exact ⟨le_refl 0, by norm_num, hL0, hL1⟩
  · have hs := saturation_bounds hr0 hr1 hg0 hg1 hb0 hb1 hc
    exact ⟨mathRound_nonneg (by linarith [hs.1]),
      mathRound_le (by linarith [hs.1]) (by push_cast; linarith [hs.2]), hL0, hL1⟩

/-- Witness for C6 at the chromatic input (12, 200, 7). -/
theorem rgbToHSL_sat_lightness_range_witness :
    ((0 : ℤ) ≤ 12 ∧ (12 : ℤ) ≤ 255 ∧ (0 : ℤ) ≤ 200 ∧ (200 : ℤ) ≤ 255 ∧
      (0 : ℤ) ≤ 7 ∧ (7 : ℤ) ≤ 255) ∧
    (0 ≤ (rgbToHSL 12 200 7).2.1 ∧ (rgbToHSL 12 200 7).2.1 ≤ 100 ∧
      0 ≤ (rgbToHSL 12 200 7).2.2 ∧ (rgbToHSL 12 200 7).2.2 ≤ 100) :=
  ⟨by norm_num, rgbToHSL_sat_lightness_range 12 200 7 (by norm_num) (by norm_num)
    (by norm_num) (by norm_num) (by norm_num) (by norm_num)⟩

/-- C7: `rgbToHSL` is total on channels in [0, 255]: either chroma is zero
and the achromatic branch returns without dividing, or chroma is a nonzero
divisor and the saturation divisor `min l (1 - l)` is strictly positive, so
no division by zero occurs. -/
theorem rgbToHSL_no_division_by_zero (red green blue : ℤ)
    (hr0 : 0 ≤ red) (hr1 : red ≤ 255) (hg0 : 0 ≤ green) (hg1 : green ≤ 255)
    (hb0 : 0 ≤ blue) (hb1 : blue ≤ 255) :
    chroma red green blue = 0 ∨
      (chroma red green blue ≠ 0 ∧
        0 < min (lightness red green blue) (1 - lightness red green blue)) := by
  by_cases hc : chroma red green blue = 0
  · exact Or.inl hc
  · have hp0 := lightness_pos hr0 hg0 hb0 hc
    have hp1 := lightness_lt_one hr1 hg1 hb1 hc
    exact Or.inr ⟨hc, lt_min hp0 (by linarith)⟩

/-- Witness for C7 at the chromatic input (200, 10, 10). -/
theorem rgbToHSL_no_division_by_zero_witness :
    ((0 : ℤ) ≤ 200 ∧ (200 : ℤ) ≤ 255 ∧ (0 : ℤ) ≤ 10 ∧ (10 : ℤ) ≤ 255 ∧
      (0 : ℤ) ≤ 10 ∧ (10 : ℤ) ≤ 255) ∧
    (chroma 200 10 10 = 0 ∨
      (chroma 200 10 10 ≠ 0 ∧
        0 < min (lightness 200 10 10) (1 - lightness 200 10 10))) :=
  ⟨by norm_num, rgbToHSL_no_division_by_zero 200 10 10 (by norm_num) (by norm_num)
    (by norm_num) (by norm_num) (by norm_num) (by norm_num)⟩

/-- C8: `rgbToHSL` is deterministic: two invocations on equal channel values
return the same triple; the embedding is a pure function of its three
arguments. -/
theorem rgbToHSL_deterministic (r1 g1 b1 r2 g2 b2 : ℤ)
    (hr : r1 = r2) (hg : g1 = g2) (hb : b1 = b2) :
    rgbToHSL r1 g1 b1 = rgbToHSL r2 g2 b2 := by
  rw [hr, hg, hb]

/-- Witness for C8 at the input (7, 20, 99) given twice. -/
theorem rgbToHSL_deterministic_witness :
    ((7 : ℤ) = 7 ∧ (20 : ℤ) = 20 ∧ (99 : ℤ) = 99) ∧
    rgbToHSL 7 20 99 = rgbToHSL 7 20 99 :=
  ⟨⟨rfl, rfl, rfl⟩, rgbToHSL_deterministic 7 20 99 7 20 99 rfl rfl rfl⟩

/-- C9: `SetRGB` forwards exactly the converter's output: the state body it
sends is the one `SetHSL` builds from `rgbToHSL red green blue`, with the hue
field holding h, the saturation field s and the brightness field l. -/
theorem setRGB_forwards_converter (red green blue : ℤ) :
    setRGBState red green blue =
      setHSLState (rgbToHSL red green blue).1 (rgbToHSL red green blue).2.1
        (rgbToHSL red green blue).2.2 ∧
    Option.map HueProperty.Value (setRGBState red green blue).Hue =
      some (rgbToHSL red green blue).1 ∧
    Option.map SaturationProperty.Value (setRGBState red green blue).Saturation =
      some (rgbToHSL red green blue).2.1 ∧
    Option.map BrightnessProperty.Value (setRGBState red green blue).Brightness =
      some (rgbToHSL red green blue).2.2 :=
  ⟨rfl, rfl, rfl, rfl⟩

/-- C10: whenever JSON marshaling succeeds, `SelectEffect`, `SetBrightness`,
`SetColorTemperature` and `SetHSL` return nil even when every `Put` fails:
the error returned by `Put` is discarded. -/
theorem put_error_discarded
    (marshalReq : effectsSelectRequest → Except String String)
    (marshalState : State → Except String String)
    (put : String → String → Option String)
    (name : String) (bright temp hv sv lv : ℤ)
    (h1 : ∃ bs, marshalReq { Select := name } = Except.ok bs)
    (h2 : ∀ st, ∃ bs, marshalState st = Except.ok bs)
    (hput : ∀ path body, put path body ≠ none) :
    selectEffect marshalReq put name = none ∧
    setBrightness marshalState put bright = none ∧
    setColorTemperature marshalState put temp = none ∧
    setHSL marshalState put hv sv lv = none := by
  obtain ⟨b1, hb1⟩ := h1
  obtain ⟨b2, hb2⟩ := h2 (setBrightnessState bright)
  obtain ⟨b3, hb3⟩ := h2 (setColorTemperatureState temp)
  obtain ⟨b4, hb4⟩ := h2 (setHSLState hv sv lv)
  refine ⟨?_, ?_, ?_, ?_⟩
  · unfold selectEffect
    rw [hb1]
  · unfold setBrightness
    rw [hb2]
  · unfold setColorTemperature
    rw [hb3]
  · unfold setHSL
    rw [hb4]

/-- Witness for C10 with stub marshalers that always succeed and a transport
stub that always fails. -/
theorem put_error_discarded_witness :
    ((∃ bs, wMarshalReq { Select := "flames" } = Except.ok bs) ∧
      (∀ st, ∃ bs, wMarshalState st = Except.ok bs) ∧
      (∀ path body, wPut path body ≠ none)) ∧
    (selectEffect wMarshalReq wPut "flames" = none ∧
      setBrightness wMarshalState wPut 50 = none ∧
      setColorTemperature wMarshalState wPut 4000 = none ∧
      setHSL wMarshalState wPut 30 100 50 = none) :=
  ⟨⟨⟨"body", rfl⟩, fun _ => ⟨"body", rfl⟩, fun _ _ => by simp [wPut]⟩,
   put_error_discarded wMarshalReq wMarshalState wPut "flames" 50 4000 30 100 50
    ⟨"body", rfl⟩ (fun _ => ⟨"body", rfl⟩) (fun _ _ => by simp [wPut])⟩

end Picoleaf
